import Mathlib

/-!
Verification of the behavioral contract of `src/AutobiographyApp.jsx`, a
single-page journaling application backed by a remote document store.

The JavaScript component is shallowly embedded below: each event handler
becomes a pure Lean function from its inputs (form state, the current
document read from the store, the current wall-clock reading) to an
explicit outcome value that records both the local result and the remote
write it performs, if any.  JavaScript strings are Lean `String`s,
`toLowerCase`/`trim` are modelled character-wise, and the timestamp
returned by `Date.now()` is passed in as an explicit `Nat` parameter.
-/

/-! ### String primitives

Models of the JavaScript string operations used by the component. -/

/-- Model of JavaScript `String.prototype.toLowerCase`: lower-cases every
character. -/
def jsToLower (s : String) : String := ⟨s.data.map Char.toLower⟩

/-- Model of JavaScript `String.prototype.trim`: strips leading and
trailing whitespace. -/
def jsTrim (s : String) : String :=
  ⟨((s.data.dropWhile Char.isWhitespace).reverse.dropWhile Char.isWhitespace).reverse⟩

/-- `subAt pat l` is true when `pat` occurs at the very front of `l`. -/
def subAt : List Char → List Char → Bool
  | [], _ => true
  | _ :: _, [] => false
  | a :: s, b :: t => a == b && subAt s t

/-- `subIn pat l` is true when `pat` occurs contiguously anywhere in `l`. -/
def subIn (pat : List Char) : List Char → Bool
  | [] => subAt pat []
  | b :: t => subAt pat (b :: t) || subIn pat t

/-- Model of JavaScript `s.includes(q)`: `q` is a contiguous substring of
`s` (the empty string is a substring of everything). -/
def jsIncludes (s q : String) : Bool := subIn q.data s.data

/-! ### Data model

Transcribed from the document shapes read and written by
`AutobiographyApp.jsx`.  Instants (`Date` values / server timestamps) are
modelled as `Nat` millisecond readings. -/

/-- A collaborative comment stored inside an entry's `collaborativeEntries`
array (see `handleAddCollaborativeComment` in the source). -/
structure Comment where
  id : String
  author : String
  content : String
  likes : Nat
  timestamp : Nat
deriving DecidableEq, Repr

/-- An autobiography entry document from the `entries` collection. -/
structure Entry where
  id : String
  title : String
  content : String
  date : String
  location : String
  tags : List String
  privacy : String
  type : String
  mediaUrls : List String
  collaborativeEntries : List Comment
  author : String
  authorName : String
  timestamp : Nat
deriving DecidableEq, Repr

/-! ### Filtering and sorting (`filteredEntries`, source lines 406-415) -/

/-- Numeric value of an entry date.  The source compares dates with
`new Date(b.date) - new Date(a.date)`; for strings in the `YYYY-MM-DD`
form the data model prescribes, reading the digits as one decimal number
is order- and equality-isomorphic to the resulting timestamps, which is
all the sort comparator observes. -/
def dateVal (s : String) : Nat :=
  s.data.foldl (fun a c => if c.isDigit then a * 10 + (c.toNat - 48) else a) 0

/-- The sort relation used by `.sort((a, b) => new Date(b.date) - new
Date(a.date))`: `a` may come before `b` when `b`'s date is at most `a`'s
(date descending, ties allowed). -/
def dateDesc (a b : Entry) : Prop := dateVal b.date ≤ dateVal a.date

instance : DecidableRel dateDesc := fun _ _ => Nat.decLe _ _

instance : IsTotal Entry dateDesc := ⟨fun a b => Nat.le_total (dateVal b.date) (dateVal a.date)⟩

instance : IsTrans Entry dateDesc := ⟨fun _ _ _ h1 h2 => Nat.le_trans h2 h1⟩

/-- `entries.sort((a, b) => new Date(b.date) - new Date(a.date))`,
modelled as a stable sort by date descending (JavaScript's `Array.sort`
is stable). -/
def sortByDateDescending (l : List Entry) : List Entry := l.insertionSort dateDesc

/-- The search predicate of `filteredEntries`: a case-insensitive
substring match of the query against title, content, any tag, or
location. -/
def matchesSearch (entry : Entry) (searchQuery : String) : Bool :=
  jsIncludes (jsToLower entry.title) (jsToLower searchQuery) ||
  jsIncludes (jsToLower entry.content) (jsToLower searchQuery) ||
  entry.tags.any (fun tag => jsIncludes (jsToLower tag) (jsToLower searchQuery)) ||
  jsIncludes (jsToLower entry.location) (jsToLower searchQuery)

/-- The type predicate of `filteredEntries`: `filterBy === 'all' ||
entry.type === filterBy`. -/
def matchesFilter (entry : Entry) (filterBy : String) : Bool :=
  filterBy == "all" || entry.type == filterBy

/-- The derived view `filteredEntries` of the source: filter by search
query and type, then sort by date descending. -/
def filteredEntries (entries : List Entry) (searchQuery filterBy : String) : List Entry :=
  sortByDateDescending
    (entries.filter (fun entry => matchesSearch entry searchQuery && matchesFilter entry filterBy))

/-! ### Helper lemmas for the filter view -/

theorem subAt_nil_left (l : List Char) : subAt [] l = true := by
  cases l <;> rfl

theorem subIn_nil_left (l : List Char) : subIn [] l = true := by
  cases l with
  | nil => rfl
  | cons b t => simp [subIn, subAt_nil_left]

theorem jsIncludes_empty (s : String) : jsIncludes s "" = true := by
  simpa [jsIncludes] using subIn_nil_left s.data

theorem jsToLower_empty : jsToLower "" = "" := by decide

theorem matchesSearch_empty (e : Entry) : matchesSearch e "" = true := by
  unfold matchesSearch
  rw [jsToLower_empty, jsIncludes_empty]
  rfl

theorem matchesFilter_all (e : Entry) : matchesFilter e "all" = true := by
  simp [matchesFilter]

theorem mem_filteredEntries (E : List Entry) (q t : String) (e : Entry) :
    e ∈ filteredEntries E q t ↔
      e ∈ E ∧ matchesSearch e q = true ∧ matchesFilter e t = true := by
  unfold filteredEntries sortByDateDescending
  rw [(List.perm_insertionSort dateDesc _).mem_iff, List.mem_filter]
  simp [Bool.and_eq_true, and_assoc]

/-! ### C1: the filtered/sorted entries view -/

/-- C1: for every entry list `E`, query `q` and type filter `t`,
`filteredEntries E q t` consists of exactly those entries of `E` whose
title, content, some tag, or location contains `q` case-insensitively and
whose type equals `t` unless `t = "all"`; the result is sorted by date
descending; and `filteredEntries E "" "all" = sortByDateDescending E`. -/
theorem filteredEntries_correct (E : List Entry) (q t : String) :
    (filteredEntries E q t).Perm
        (E.filter (fun e => matchesSearch e q && matchesFilter e t)) ∧
    (∀ e, e ∈ filteredEntries E q t ↔
        e ∈ E ∧ matchesSearch e q = true ∧ matchesFilter e t = true) ∧
    List.Sorted dateDesc (filteredEntries E q t) ∧
    filteredEntries E "" "all" = sortByDateDescending E := by
  refine ⟨List.perm_insertionSort dateDesc _, mem_filteredEntries E q t, ?_, ?_⟩
  · exact List.sorted_insertionSort dateDesc _
  · unfold filteredEntries
    rw [List.filter_eq_self.mpr]
    intro e _
    rw [matchesSearch_empty, matchesFilter_all]
    rfl

/-- A concrete entry used to instantiate the filter-view theorem: the
"Trip to Paris" scenario of the specification. -/
def parisEntry : Entry :=
  { id := "e1", title := "Trip", content := "Went to Paris", date := "2015-06-01",
    location := "Paris", tags := ["travel"], privacy := "private", type := "personal",
    mediaUrls := [], collaborativeEntries := [], author := "u1", authorName := "You",
    timestamp := 0 }

/-- Witness for C1: the Paris entry is found by the query "paris" (a
case-insensitive location match) under the "all" type filter. -/
theorem filteredEntries_correct_witness :
    parisEntry ∈ filteredEntries [parisEntry] "paris" "all" :=
  ((filteredEntries_correct [parisEntry] "paris" "all").2.1 parisEntry).mpr
    ⟨List.mem_singleton.mpr rfl, by decide, by decide⟩

/-! ### Saving entries (`handleSaveEntry`, source lines 203-239) -/

/-- The entry form state (`formEntry`) filled in by the create/edit
modal. -/
structure FormEntry where
  title : String
  content : String
  date : String
  location : String
  tags : List String
  privacy : String
  type : String
  mediaUrls : List String
  collaborativeEntries : List Comment
deriving DecidableEq, Repr

/-- The document payload `entryData` that `handleSaveEntry` sends to the
store: the form spread together with author, display name, cleaned tags
and a timestamp. -/
structure EntryData where
  title : String
  content : String
  date : String
  location : String
  tags : List String
  privacy : String
  type : String
  mediaUrls : List String
  collaborativeEntries : List Comment
  author : String
  authorName : String
  timestamp : Nat
deriving DecidableEq, Repr

/-- Outcome of `handleSaveEntry`: the guard failures make no remote call;
otherwise exactly one remote call is made, `updateDoc` on the edited
entry's document or `addDoc` on the entries collection. -/
inductive SaveOutcome where
  | notReady
  | validationError
  | updateDoc (id : String) (data : EntryData)
  | addDoc (data : EntryData)
deriving DecidableEq, Repr

/-- `handleSaveEntry` from the source.  The JavaScript emptiness test
`!formEntry.title || !formEntry.content` is string falsiness, which for
strings means equality with `""` (a whitespace-only string is truthy);
`===` on strings is `=`; `Date.now()`-style clock readings enter as
`now`. -/
def handleSaveEntry (ready : Bool) (form : FormEntry) (editingEntry : Option String)
    (userId : String) (now : Nat) : SaveOutcome :=
  if !ready then .notReady
  else if form.title = "" ∨ form.content = "" then .validationError
  else
    let entryData : EntryData :=
      { title := form.title, content := form.content, date := form.date,
        location := form.location, privacy := form.privacy, type := form.type,
        mediaUrls := form.mediaUrls, collaborativeEntries := form.collaborativeEntries,
        author := userId, authorName := "You",
        tags := (form.tags.map jsTrim).filter (fun tag => tag != ""),
        timestamp := now }
    match editingEntry with
    | some id => .updateDoc id entryData
    | none => .addDoc entryData

/-- Whether a save outcome reached the remote store. -/
def isRemoteSave : SaveOutcome → Bool
  | .updateDoc _ _ => true
  | .addDoc _ => true
  | _ => false

/-- The tags array contained in the document a save outcome persisted,
if any. -/
def savedTags : SaveOutcome → Option (List String)
  | .updateDoc _ d => some d.tags
  | .addDoc d => some d.tags
  | _ => none

/-! ### C2: save validation -/

/-- A draft whose title is whitespace-only (blank but not empty). -/
def blankTitleForm : FormEntry :=
  { title := " ", content := "x", date := "2024-01-01", location := "", tags := [],
    privacy := "private", type := "personal", mediaUrls := [], collaborativeEntries := [] }

/-- C2 counterexample: a whitespace-only title is blank, yet
`handleSaveEntry` does not return a validation error for it and does
invoke the remote store, because the source only tests string falsiness
(emptiness), not blankness. -/
theorem handleSaveEntry_blank_counterexample :
    jsTrim " " = "" ∧
    handleSaveEntry true blankTitleForm none "u1" 0 ≠ SaveOutcome.validationError ∧
    isRemoteSave (handleSaveEntry true blankTitleForm none "u1" 0) = true :=
  ⟨by decide, by decide, by decide⟩

/-- C2 (amended): for every draft whose title or content is empty, save
returns a validation error and makes no remote-store call; the remote
store is invoked whenever both title and content are non-empty. -/
theorem handleSaveEntry_validation (form : FormEntry) (editingEntry : Option String)
    (userId : String) (now : Nat) :
    ((form.title = "" ∨ form.content = "") →
        handleSaveEntry true form editingEntry userId now = SaveOutcome.validationError ∧
        isRemoteSave (handleSaveEntry true form editingEntry userId now) = false) ∧
    (form.title ≠ "" → form.content ≠ "" →
        isRemoteSave (handleSaveEntry true form editingEntry userId now) = true) := by
  constructor
  · intro h
    rw [handleSaveEntry, if_neg (by simp), if_pos h]
    exact ⟨rfl, rfl⟩
  · intro h1 h2
    rw [handleSaveEntry, if_neg (by simp), if_neg (by tauto)]
    cases editingEntry <;> rfl

/-- A draft with an empty title. -/
def emptyTitleForm : FormEntry :=
  { title := "", content := "x", date := "2024-01-01", location := "", tags := [],
    privacy := "private", type := "personal", mediaUrls := [], collaborativeEntries := [] }

/-- A complete draft. -/
def okForm : FormEntry :=
  { title := "t", content := "c", date := "2024-01-01", location := "", tags := [],
    privacy := "private", type := "personal", mediaUrls := [], collaborativeEntries := [] }

/-- Witness for the amended C2: an empty title is rejected without a
remote call, and a complete draft reaches the store. -/
theorem handleSaveEntry_validation_witness :
    handleSaveEntry true emptyTitleForm none "u1" 0 = SaveOutcome.validationError ∧
    isRemoteSave (handleSaveEntry true okForm none "u1" 0) = true :=
  ⟨((handleSaveEntry_validation emptyTitleForm none "u1" 0).1 (Or.inl rfl)).1,
   (handleSaveEntry_validation okForm none "u1" 0).2 (by decide) (by decide)⟩

/-! ### C3: tag normalization on save -/

/-- A draft carrying a duplicated tag. -/
def dupTagsForm : FormEntry :=
  { title := "t", content := "c", date := "2024-01-01", location := "", tags := ["a", "a"],
    privacy := "private", type := "personal", mediaUrls := [], collaborativeEntries := [] }

/-- C3 counterexample: a successful save of a draft with tags
`["a", "a"]` persists tags `["a", "a"]`, which contains a duplicate -
the source trims and drops blanks but never deduplicates. -/
theorem savedTags_duplicates_counterexample :
    savedTags (handleSaveEntry true dupTagsForm none "u1" 0) = some ["a", "a"] ∧
    ¬ (["a", "a"] : List String).Nodup :=
  ⟨by decide, by decide⟩

/-- C3 (amended): for every successful save, the persisted tags sequence
is the draft's tags with each tag trimmed and empty strings removed, so
the stored tags array contains no blank entries (duplicates are kept). -/
theorem savedTags_normalized (form : FormEntry) (editingEntry : Option String)
    (userId : String) (now : Nat) (h1 : form.title ≠ "") (h2 : form.content ≠ "") :
    savedTags (handleSaveEntry true form editingEntry userId now) =
      some ((form.tags.map jsTrim).filter (fun tag => tag != "")) ∧
    ∀ tag ∈ (form.tags.map jsTrim).filter (fun tag => tag != ""), tag ≠ "" := by
  constructor
  · rw [handleSaveEntry, if_neg (by simp), if_neg (by tauto)]
    cases editingEntry <;> rfl
  · intro tag htag
    exact bne_iff_ne.mp (List.mem_filter.mp htag).2

/-- A draft whose tags need trimming and blank-dropping. -/
def messyTagsForm : FormEntry :=
  { title := "t", content := "c", date := "2024-01-01", location := "",
    tags := [" a ", "", "b"],
    privacy := "private", type := "personal", mediaUrls := [], collaborativeEntries := [] }

/-- Witness for the amended C3: the tags `[" a ", "", "b"]` are stored
as their trimmed, blank-free normalization. -/
theorem savedTags_normalized_witness :
    savedTags (handleSaveEntry true messyTagsForm none "u1" 0) =
      some ((messyTagsForm.tags.map jsTrim).filter (fun tag => tag != "")) ∧
    (messyTagsForm.tags.map jsTrim).filter (fun tag => tag != "") = ["a", "b"] :=
  ⟨(savedTags_normalized messyTagsForm none "u1" 0 (by decide) (by decide)).1, by decide⟩

/-! ### Collaborative comments (source lines 350-403) -/

/-- Outcome of the comment handlers: either a guard stopped the handler
before any store access, or the entry document was missing (the handler
silently does nothing), or `updateDoc` replaced the entry's
`collaborativeEntries` array with the given list and the handler showed
its success toast. -/
inductive CommentOutcome where
  | notReady
  | validationError
  | noEntry
  | writeComments (comments : List Comment)
deriving DecidableEq, Repr

/-- `handleAddCollaborativeComment` from the source: rejects content that
is blank after trimming, otherwise appends a fresh comment (time-based
id `c${Date.now()}`, likes 0) to the entry's current list and writes the
full list back. -/
def handleAddCollaborativeComment (ready : Bool) (entry : Option Entry)
    (authorName content : String) (now : Nat) : CommentOutcome :=
  if !ready then .notReady
  else if jsTrim content = "" then .validationError
  else
    match entry with
    | none => .noEntry
    | some e =>
        .writeComments (e.collaborativeEntries ++
          [{ id := "c" ++ toString now, author := authorName, content := content,
             likes := 0, timestamp := now }])

/-- The `.map` inside `handleLikeCollaborativeComment`: bump the likes of
the comment whose id matches, keep every other comment as it is.  The
source guards `comment.likes || 0` against a missing field; `likes` is
total here, so that read is `comment.likes`. -/
def likeComments (comments : List Comment) (commentId : String) : List Comment :=
  comments.map (fun comment =>
    if comment.id = commentId then { comment with likes := comment.likes + 1 } else comment)

/-- `handleLikeCollaborativeComment` from the source. -/
def handleLikeCollaborativeComment (ready : Bool) (entry : Option Entry)
    (commentId : String) : CommentOutcome :=
  if !ready then .notReady
  else
    match entry with
    | none => .noEntry
    | some e => .writeComments (likeComments e.collaborativeEntries commentId)

/-- The entry as stored after `updateDoc(entryRef, { collaborativeEntries:
... })`: a partial update that replaces only that one field. -/
def applyCommentsUpdate (e : Entry) (comments : List Comment) : Entry :=
  { e with collaborativeEntries := comments }

/-! ### C4: liking a present comment -/

/-- C4: when an entry's comments have pairwise-distinct ids and
`commentId` is present among them, liking it targets exactly one
position, increments that comment's likes by 1 leaving its other fields
intact, leaves the comment at every other position unchanged, and the
written-back entry differs from the original in no field other than
`collaborativeEntries`. -/
theorem likeComment_targets_exactly_one (e : Entry) (commentId : String)
    (hnd : (e.collaborativeEntries.map Comment.id).Nodup)
    (hmem : ∃ c ∈ e.collaborativeEntries, c.id = commentId) :
    (∃! j : Nat, ∃ c, e.collaborativeEntries[j]? = some c ∧ c.id = commentId) ∧
    (∀ (j : Nat) (c : Comment), e.collaborativeEntries[j]? = some c →
        (likeComments e.collaborativeEntries commentId)[j]? =
          some (if c.id = commentId then { c with likes := c.likes + 1 } else c)) ∧
    (∀ (j : Nat) (c : Comment), e.collaborativeEntries[j]? = some c → c.id ≠ commentId →
        (likeComments e.collaborativeEntries commentId)[j]? = some c) ∧
    (likeComments e.collaborativeEntries commentId).length =
      e.collaborativeEntries.length ∧
    (∀ comments,
        (applyCommentsUpdate e comments).id = e.id ∧
        (applyCommentsUpdate e comments).title = e.title ∧
        (applyCommentsUpdate e comments).content = e.content ∧
        (applyCommentsUpdate e comments).date = e.date ∧
        (applyCommentsUpdate e comments).location = e.location ∧
        (applyCommentsUpdate e comments).tags = e.tags ∧
        (applyCommentsUpdate e comments).privacy = e.privacy ∧
        (applyCommentsUpdate e comments).type = e.type ∧
        (applyCommentsUpdate e comments).mediaUrls = e.mediaUrls ∧
        (applyCommentsUpdate e comments).author = e.author ∧
        (applyCommentsUpdate e comments).authorName = e.authorName ∧
        (applyCommentsUpdate e comments).timestamp = e.timestamp) := by
  refine ⟨?_, ?_, ?_, ?_, ?_⟩
  · obtain ⟨c, hc, hcid⟩ := hmem
    obtain ⟨j, hj⟩ := List.mem_iff_getElem?.mp hc
    refine ⟨j, ⟨c, hj, hcid⟩, ?_⟩
    intro k ⟨c2, hk, hkid⟩
    have hjlen : j < e.collaborativeEntries.length := by
      rcases List.getElem?_eq_some.mp hj with ⟨h, _⟩
      exact h
    have hklen : k < e.collaborativeEntries.length := by
      rcases List.getElem?_eq_some.mp hk with ⟨h, _⟩
      exact h
    have hmapk : (e.collaborativeEntries.map Comment.id)[k]? = some commentId := by
      rw [List.getElem?_map, hk]
      simpa using hkid
    have hmapj : (e.collaborativeEntries.map Comment.id)[j]? = some commentId := by
      rw [List.getElem?_map, hj]
      simpa using hcid
    exact List.getElem?_inj (by simpa using hklen) hnd (hmapk.trans hmapj.symm)
  · intro j c hj
    rw [likeComments, List.getElem?_map, hj]
    rfl
  · intro j c hj hne
    rw [likeComments, List.getElem?_map, hj]
    simp [hne]
  · exact List.length_map _ _
  · intro comments
    exact ⟨rfl, rfl, rfl, rfl, rfl, rfl, rfl, rfl, rfl, rfl, rfl, rfl⟩

/-- A concrete comment with id "c1". -/
def cmtA : Comment :=
  { id := "c1", author := "A", content := "first", likes := 0, timestamp := 1 }

/-- A concrete comment with id "c2". -/
def cmtB : Comment :=
  { id := "c2", author := "B", content := "second", likes := 3, timestamp := 2 }

/-- A concrete entry with two distinctly-identified comments, used to
instantiate the like theorem. -/
def twoCommentEntry : Entry :=
  { id := "e2", title := "t", content := "c", date := "2020-01-01", location := "",
    tags := [], privacy := "private", type := "personal", mediaUrls := [],
    collaborativeEntries := [cmtA, cmtB],
    author := "u1", authorName := "You", timestamp := 0 }

/-- Witness for C4: liking comment "c1" of the two-comment entry bumps
its likes from 0 to 1 and leaves comment "c2" untouched. -/
theorem likeComment_targets_exactly_one_witness :
    (likeComments twoCommentEntry.collaborativeEntries "c1")[0]? =
      some { id := "c1", author := "A", content := "first", likes := 1, timestamp := 1 } ∧
    (likeComments twoCommentEntry.collaborativeEntries "c1")[1]? = some cmtB := by
  have h := likeComment_targets_exactly_one twoCommentEntry "c1" (by decide)
    ⟨cmtA, by decide, rfl⟩
  exact ⟨by simpa [cmtA] using h.2.1 0 cmtA rfl, h.2.2.1 1 cmtB rfl (by decide)⟩

/-! ### C5: adding a collaborative comment -/

/-- Whether a comment outcome reached the remote store. -/
def isRemoteCommentWrite : CommentOutcome → Bool
  | .writeComments _ => true
  | _ => false

/-- C5: adding a comment with blank (empty or whitespace-only) content is
rejected before any store access; with non-blank content on an existing
entry, exactly one new comment with likes 0 and the given author and
content is appended to the end of the entry's list, all existing
comments kept in order. -/
theorem addComment_appends (e : Entry) (authorName content : String) (now : Nat) :
    (jsTrim content = "" →
        handleAddCollaborativeComment true (some e) authorName content now =
          CommentOutcome.validationError ∧
        isRemoteCommentWrite
          (handleAddCollaborativeComment true (some e) authorName content now) = false) ∧
    (jsTrim content ≠ "" →
        handleAddCollaborativeComment true (some e) authorName content now =
          CommentOutcome.writeComments (e.collaborativeEntries ++
            [{ id := "c" ++ toString now, author := authorName, content := content,
               likes := 0, timestamp := now }])) := by
  constructor
  · intro h
    rw [handleAddCollaborativeComment, if_neg (by simp), if_pos h]
    exact ⟨rfl, rfl⟩
  · intro h
    rw [handleAddCollaborativeComment, if_neg (by simp), if_neg h]

/-- Witness for C5: whitespace-only content is rejected, and the content
"great memory" is appended as a fresh likes-0 comment after the two
existing comments. -/
theorem addComment_appends_witness :
    handleAddCollaborativeComment true (some twoCommentEntry) "Guest User" "  " 7 =
      CommentOutcome.validationError ∧
    handleAddCollaborativeComment true (some twoCommentEntry) "Guest User" "great memory" 7 =
      CommentOutcome.writeComments [cmtA, cmtB,
        { id := "c7", author := "Guest User", content := "great memory",
          likes := 0, timestamp := 7 }] := by
  refine ⟨((addComment_appends twoCommentEntry "Guest User" "  " 7).1 (by decide)).1, ?_⟩
  rw [(addComment_appends twoCommentEntry "Guest User" "great memory" 7).2 (by decide)]
  decide

/-! ### C10: liking an absent comment -/

/-- C10: when no comment of the entry carries `commentId`, the like
handler still succeeds at the public interface: it writes the
`collaborativeEntries` list back element-wise unchanged (the map is the
identity) rather than reporting an error. -/
theorem likeComment_missing_noop (e : Entry) (commentId : String)
    (habsent : ∀ c ∈ e.collaborativeEntries, c.id ≠ commentId) :
    likeComments e.collaborativeEntries commentId = e.collaborativeEntries ∧
    handleLikeCollaborativeComment true (some e) commentId =
      CommentOutcome.writeComments e.collaborativeEntries ∧
    isRemoteCommentWrite (handleLikeCollaborativeComment true (some e) commentId) = true := by
  have hmap : likeComments e.collaborativeEntries commentId = e.collaborativeEntries := by
    rw [likeComments]
    conv_rhs => rw [← List.map_id e.collaborativeEntries]
    apply List.map_congr_left
    intro c hc
    simp [habsent c hc]
  refine ⟨hmap, ?_, ?_⟩
  · rw [handleLikeCollaborativeComment, if_neg (by simp), hmap]
  · rw [handleLikeCollaborativeComment, if_neg (by simp)]
    rfl

/-- Witness for C10: liking the id "zzz", which no comment of the
two-comment entry carries, writes the list back unchanged and is still
the success outcome. -/
theorem likeComment_missing_noop_witness :
    likeComments twoCommentEntry.collaborativeEntries "zzz" =
      twoCommentEntry.collaborativeEntries ∧
    handleLikeCollaborativeComment true (some twoCommentEntry) "zzz" =
      CommentOutcome.writeComments twoCommentEntry.collaborativeEntries :=
  ⟨(likeComment_missing_noop twoCommentEntry "zzz" (by decide)).1,
   (likeComment_missing_noop twoCommentEntry "zzz" (by decide)).2.1⟩

/-! ### AI questions (source lines 262-322) -/

/-- An AI question document from the `aiQuestions` collection.  `answer`
and `answeredAt` are absent (`none`) until the question is answered. -/
structure AIQuestion where
  id : String
  question : String
  relatedEntry : Option String
  type : String
  answered : Bool
  answer : Option String
  answeredAt : Option Nat
deriving DecidableEq, Repr

/-- Outcome of `handleAnswerAIQuestion`: guard failures make no remote
call; otherwise `updateDoc` applies the partial update `{ answered:
true, answer, answeredAt }` to the question document, yielding the
updated document. -/
inductive AnswerOutcome where
  | notReady
  | validationError
  | writeAnswer (updated : AIQuestion)
deriving DecidableEq, Repr

/-- `handleAnswerAIQuestion` from the source: rejects content that is
blank after trimming (`!answerContent.trim()`) before any store access,
otherwise partially updates the stored question `q`. -/
def handleAnswerAIQuestion (ready : Bool) (q : AIQuestion) (answerContent : String)
    (now : Nat) : AnswerOutcome :=
  if !ready then .notReady
  else if jsTrim answerContent = "" then .validationError
  else .writeAnswer
    { q with answered := true, answer := some answerContent, answeredAt := some now }

/-- The stored question after the handler ran: unchanged unless the
handler wrote an update. -/
def answerResult (q : AIQuestion) : AnswerOutcome → AIQuestion
  | .writeAnswer u => u
  | _ => q

/-! ### C6: answering an AI question -/

/-- C6: answering with blank (empty or whitespace-only) content performs
no remote write and leaves the stored question - in particular an
unanswered flag - untouched; non-blank content marks the question
answered with the answer and an answer timestamp stored, and any
question this handler marks answered carries a non-null answer. -/
theorem answerQuestion_correct (q : AIQuestion) (content : String) (now : Nat) :
    (jsTrim content = "" →
        handleAnswerAIQuestion true q content now = AnswerOutcome.validationError ∧
        answerResult q (handleAnswerAIQuestion true q content now) = q) ∧
    (jsTrim content ≠ "" →
        handleAnswerAIQuestion true q content now = AnswerOutcome.writeAnswer
          { q with answered := true, answer := some content, answeredAt := some now }) ∧
    (∀ u, handleAnswerAIQuestion true q content now = AnswerOutcome.writeAnswer u →
        u.answered = true ∧ u.answer ≠ none) := by
  refine ⟨?_, ?_, ?_⟩
  · intro h
    rw [handleAnswerAIQuestion, if_neg (by simp), if_pos h]
    exact ⟨rfl, rfl⟩
  · intro h
    rw [handleAnswerAIQuestion, if_neg (by simp), if_neg h]
  · intro u hu
    rw [handleAnswerAIQuestion, if_neg (by simp)] at hu
    by_cases h : jsTrim content = ""
    · rw [if_pos h] at hu
      exact absurd hu (by simp)
    · rw [if_neg h] at hu
      obtain rfl := (AnswerOutcome.writeAnswer.injEq _ _).mp hu.symm
      exact ⟨rfl, by simp⟩

/-- A concrete unanswered AI question. -/
def freshQuestion : AIQuestion :=
  { id := "q1", question := "What were your biggest aspirations or dreams during 2015?",
    relatedEntry := none, type := "reflection", answered := false,
    answer := none, answeredAt := none }

/-- Witness for C6: a whitespace-only answer leaves the fresh question
unanswered with no write, and the answer "I wanted to travel" marks it
answered with the answer and timestamp stored. -/
theorem answerQuestion_correct_witness :
    handleAnswerAIQuestion true freshQuestion "  " 9 = AnswerOutcome.validationError ∧
    (answerResult freshQuestion (handleAnswerAIQuestion true freshQuestion "  " 9)).answered
      = false ∧
    handleAnswerAIQuestion true freshQuestion "I wanted to travel" 9 =
      AnswerOutcome.writeAnswer { freshQuestion with answered := true, answer := some "I wanted to travel", answeredAt := some 9 } := by
  have h1 := (answerQuestion_correct freshQuestion "  " 9).1 (by decide)
  have h2 := (answerQuestion_correct freshQuestion "I wanted to travel" 9).2.1 (by decide)
  exact ⟨h1.1, by rw [h1.2]; rfl, h2⟩

/-! ### C7: generating AI questions for a year -/

/-- `generateAIQuestionsForYear` from the source: builds exactly two
question records from the two string templates; each id is
`q${Date.now()}` plus a disambiguating suffix.  `Date.now()` is read
once per record, so the two readings `now1` and `now2` may or may not
coincide. -/
def generateAIQuestionsForYear (year : Int) (now1 now2 : Nat) : List AIQuestion :=
  [{ id := "q" ++ toString now1 ++ "a",
     question := "What were your biggest aspirations or dreams during " ++
       toString year ++ "?",
     relatedEntry := none, type := "reflection", answered := false,
     answer := none, answeredAt := none },
   { id := "q" ++ toString now2 ++ "b",
     question := "Who were your closest friends or mentors in " ++ toString year ++
       " and how did they influence you?",
     relatedEntry := none, type := "people", answered := false,
     answer := none, answeredAt := none }]

theorem append_singleton_ne (s t : String) : s ++ "a" ≠ t ++ "b" := by
  intro h
  have h2 : (s ++ "a").data = (t ++ "b").data := congrArg String.data h
  rw [String.data_append, String.data_append] at h2
  rw [show ("a" : String).data = ['a'] from rfl,
      show ("b" : String).data = ['b'] from rfl] at h2
  have h3 := congrArg List.getLast? h2
  rw [List.getLast?_concat, List.getLast?_concat] at h3
  exact absurd (Option.some.inj h3) (by decide)

/-- C7: for every year and every pair of clock readings - also for two
readings within the same millisecond, i.e. `now1 = now2` -
`generateAIQuestionsForYear` produces exactly two question records, each
unanswered with a null `relatedEntry`, and their ids (suffixed `a` and
`b`) are distinct. -/
theorem generateAIQuestions_distinct (year : Int) (now1 now2 : Nat) :
    (generateAIQuestionsForYear year now1 now2).length = 2 ∧
    (generateAIQuestionsForYear year now1 now2).all
      (fun q => !q.answered && q.relatedEntry.isNone) = true ∧
    ((generateAIQuestionsForYear year now1 now2).map AIQuestion.id).Nodup := by
  refine ⟨rfl, rfl, ?_⟩
  show (["q" ++ toString now1 ++ "a", "q" ++ toString now2 ++ "b"] : List String).Nodup
  refine List.nodup_cons.mpr ⟨?_, List.nodup_singleton _⟩
  rw [List.mem_singleton]
  exact append_singleton_ne ("q" ++ toString now1) ("q" ++ toString now2)

/-! ### Photo requests (source lines 327-347 and the Simulate Response
click handler, source lines 1110-1125) -/

/-- A photo request document from the `photoRequests` collection. -/
structure PhotoRequest where
  id : String
  location : String
  timeframe : String
  description : String
  status : String
  responses : Nat
  requestedAt : Nat
deriving DecidableEq, Repr

/-- The document payload that `requestHistoricalPhotos` submits with
`addDoc` (the id is assigned by the store). -/
structure PhotoRequestData where
  location : String
  timeframe : String
  description : String
  status : String
  responses : Nat
  requestedAt : Nat
deriving DecidableEq, Repr

/-- Outcome of `requestHistoricalPhotos`. -/
inductive PhotoRequestOutcome where
  | notReady
  | createRequest (data : PhotoRequestData)
deriving DecidableEq, Repr

/-- `requestHistoricalPhotos` from the source: every created request
starts with status "pending" and a response count of 0. -/
def requestHistoricalPhotos (ready : Bool) (location timeframe description : String)
    (now : Nat) : PhotoRequestOutcome :=
  if !ready then .notReady
  else .createRequest
    { location := location, timeframe := timeframe, description := description,
      status := "pending", responses := 0, requestedAt := now }

/-- A remote-store operation, used to record which store calls an event
handler performs. -/
inductive RemoteOp where
  | addDoc (collectionName : String)
  | setDoc (collectionName : String) (docId : String)
  | updateDoc (collectionName : String) (docId : String)
  | deleteDoc (collectionName : String) (docId : String)
deriving DecidableEq, Repr

/-- The "Simulate Response" click handler from the entries view: it maps
the local `photoRequests` state, switching the matched request to status
"found" with one more response, calls `setPhotoRequests` on the result,
and performs no remote-store call (the source comments that a real app
would write to the store here).  The second component lists the remote
operations performed: none. -/
def simulateResponseClick (photoRequests : List PhotoRequest) (requestId : String) :
    List PhotoRequest × List RemoteOp :=
  (photoRequests.map (fun pr =>
      if pr.id = requestId then { pr with status := "found", responses := pr.responses + 1 }
      else pr),
   [])

/-! ### C8: the photo-request lifecycle -/

/-- C8: every photo request is created as "pending" with 0 responses; the
simulate-response transition turns the matched pending request into
"found" with its responses incremented by exactly 1 - a fresh request
goes from pending/0 to found/1 - leaves non-matching requests unchanged,
and performs no remote-store operation. -/
theorem photoRequest_lifecycle (location timeframe description : String) (now : Nat)
    (prs : List PhotoRequest) (requestId : String) :
    requestHistoricalPhotos true location timeframe description now =
      PhotoRequestOutcome.createRequest
        { location := location, timeframe := timeframe, description := description,
          status := "pending", responses := 0, requestedAt := now } ∧
    (∀ (j : Nat) (pr : PhotoRequest), prs[j]? = some pr → pr.id = requestId →
        (simulateResponseClick prs requestId).1[j]? =
          some { pr with status := "found", responses := pr.responses + 1 }) ∧
    (∀ (j : Nat) (pr : PhotoRequest), prs[j]? = some pr → pr.id = requestId →
        pr.status = "pending" → pr.responses = 0 →
        (simulateResponseClick prs requestId).1[j]? =
          some { pr with status := "found", responses := 1 }) ∧
    (∀ (j : Nat) (pr : PhotoRequest), prs[j]? = some pr → pr.id ≠ requestId →
        (simulateResponseClick prs requestId).1[j]? = some pr) ∧
    (simulateResponseClick prs requestId).2 = [] := by
  refine ⟨rfl, ?_, ?_, ?_, rfl⟩
  · intro j pr hj hid
    simp only [simulateResponseClick, List.getElem?_map, hj, Option.map_some']
    rw [if_pos hid]
  · intro j pr hj hid _ hresp
    simp only [simulateResponseClick, List.getElem?_map, hj, Option.map_some']
    rw [if_pos hid, hresp]
  · intro j pr hj hid
    simp only [simulateResponseClick, List.getElem?_map, hj, Option.map_some']
    rw [if_neg hid]

/-- A freshly created photo request as it appears in local state. -/
def freshRequest : PhotoRequest :=
  { id := "p1", location := "Paris", timeframe := "2010s",
    description := "Street views", status := "pending", responses := 0, requestedAt := 3 }

/-- Witness for C8: the fresh pending/0 request "p1" becomes found/1
after the simulated response, and the handler performs no remote
operation. -/
theorem photoRequest_lifecycle_witness :
    (simulateResponseClick [freshRequest] "p1").1[0]? =
      some { freshRequest with status := "found", responses := 1 } ∧
    (simulateResponseClick [freshRequest] "p1").2 = [] :=
  ⟨(photoRequest_lifecycle "Paris" "2010s" "Street views" 3 [freshRequest] "p1").2.2.1
      0 freshRequest rfl rfl rfl rfl,
   (photoRequest_lifecycle "Paris" "2010s" "Street views" 3 [freshRequest] "p1").2.2.2.2⟩

/-! ### In-memory mirrors of the four collections (source lines 136-166
and the handlers' local-state usage) -/

/-- A timeline event document from the `timelineEvents` collection. -/
structure TimelineEvent where
  id : String
  year : Int
  events : List String
  color : Option String
deriving DecidableEq, Repr

/-- The four in-memory mirrors held in React state (`entries`,
`timelineEvents`, `aiQuestions`, `photoRequests`). -/
structure AppState where
  entries : List Entry
  timelineEvents : List TimelineEvent
  aiQuestions : List AIQuestion
  photoRequests : List PhotoRequest
deriving DecidableEq, Repr

/-- The occurrences that can modify the mirrors.  The four snapshot
events are the `onSnapshot` callbacks installed by `fetchCollection`;
the remaining events are local user actions, each carrying whether its
remote operation succeeded (the handlers catch failures and only show a
toast). -/
inductive AppEvent where
  | snapshotEntries (docs : List Entry)
  | snapshotTimelineEvents (docs : List TimelineEvent)
  | snapshotAiQuestions (docs : List AIQuestion)
  | snapshotPhotoRequests (docs : List PhotoRequest)
  | saveEntryAction (succeeded : Bool)
  | deleteEntryAction (succeeded : Bool)
  | answerQuestionAction (succeeded : Bool)
  | generateQuestionsAction (succeeded : Bool)
  | photoRequestAction (succeeded : Bool)
  | addCommentAction (succeeded : Bool)
  | likeCommentAction (succeeded : Bool)
  | simulateResponseAction (requestId : String)
deriving DecidableEq, Repr

/-- Whether an event is a subscription snapshot callback. -/
def AppEvent.isSnapshot : AppEvent → Bool
  | .snapshotEntries _ => true
  | .snapshotTimelineEvents _ => true
  | .snapshotAiQuestions _ => true
  | .snapshotPhotoRequests _ => true
  | _ => false

/-- How each occurrence updates the mirrors, transcribed from the
source: each `onSnapshot` callback replaces its mirror with the snapshot
data; no CRUD handler calls any of the four setters - succeed or fail,
they only touch modal/toast state - except the Simulate Response click,
which rewrites `photoRequests` locally via `setPhotoRequests`. -/
def step (s : AppState) : AppEvent → AppState
  | .snapshotEntries docs => { s with entries := docs }
  | .snapshotTimelineEvents docs => { s with timelineEvents := docs }
  | .snapshotAiQuestions docs => { s with aiQuestions := docs }
  | .snapshotPhotoRequests docs => { s with photoRequests := docs }
  | .simulateResponseAction requestId =>
      { s with photoRequests := (simulateResponseClick s.photoRequests requestId).1 }
  | _ => s

/-! ### C9: mirrors and subscription snapshots -/

/-- A concrete state holding one fresh photo request. -/
def pendingState : AppState :=
  { entries := [], timelineEvents := [], aiQuestions := [], photoRequests := [freshRequest] }

/-- C9 counterexample: the Simulate Response click is a local user
action, not a subscription snapshot, yet it changes the `photoRequests`
mirror - the mirrors are not updated exclusively from confirmed
snapshots. -/
theorem mirrors_counterexample :
    AppEvent.isSnapshot (AppEvent.simulateResponseAction "p1") = false ∧
    (step pendingState (AppEvent.simulateResponseAction "p1")).photoRequests ≠
      pendingState.photoRequests := by
  exact ⟨rfl, by decide⟩

/-- C9 (amended): the `entries`, `timelineEvents` and `aiQuestions`
mirrors are updated only from subscription snapshots; the
`photoRequests` mirror is additionally updated locally by the Simulate
Response action, which is the only non-snapshot event that changes any
mirror; in particular every action other than it - failed or successful
- leaves the whole state exactly as it was. -/
theorem mirrors_snapshot_only (s : AppState) (ev : AppEvent) :
    (ev.isSnapshot = false →
        (step s ev).entries = s.entries ∧
        (step s ev).timelineEvents = s.timelineEvents ∧
        (step s ev).aiQuestions = s.aiQuestions) ∧
    (ev.isSnapshot = false → (∀ requestId, ev ≠ AppEvent.simulateResponseAction requestId) →
        step s ev = s) := by
  constructor
  · intro _
    cases ev <;> first
      | exact ⟨rfl, rfl, rfl⟩
      | simp [AppEvent.isSnapshot] at *
  · intro _ hnot
    cases ev <;> first
      | rfl
      | simp [AppEvent.isSnapshot] at *

/-- Witness for the amended C9: a failed save action leaves the
one-request state untouched. -/
theorem mirrors_snapshot_only_witness :
    step pendingState (AppEvent.saveEntryAction false) = pendingState :=
  (mirrors_snapshot_only pendingState (AppEvent.saveEntryAction false)).2 rfl
    (fun _ h => AppEvent.noConfusion h)
